import Mathlib

/-!
Stockr — verification of the TimeSeriesTransformer and batch-export scripts.

Shallow embedding of the tabular transformations in `dosc.py` (the dashboard's
`get_stock_data`, window filtering, and volume-granularity choice) and of the
two batch-export scripts in `get_stock_data.py`.  Dates are modelled as civil
calendar dates with an exact day-number conversion; prices are rationals;
`NaN` cells produced by `pct_change` are modelled as `Option.none`.
-/

namespace Stockr

/-- A civil calendar date, as carried by the pandas `Date` column. -/
structure Date where
  year : Int
  month : Int
  day : Int
deriving DecidableEq, Repr

/-- Day number of a civil date (days since 1970-01-01, Gregorian calendar,
standard civil-from-days arithmetic).  `pandas` timestamp subtraction
`(a - b).days` equals `a.toDays - b.toDays`, and `a >= b` iff
`a.toDays >= b.toDays` for the dates produced here. -/
def Date.toDays (dt : Date) : Int :=
  let y : Int := if dt.month ≤ 2 then dt.year - 1 else dt.year
  let era : Int := (if 0 ≤ y then y else y - 399) / 400
  let yoe : Int := y - era * 400
  let mp : Int := (dt.month + 9) % 12
  let doy : Int := (153 * mp + 2) / 5 + dt.day - 1
  let doe : Int := yoe * 365 + yoe / 4 - yoe / 100 + doy
  era * 146097 + doe - 719468

/-- Date order by day number (the order pandas uses on the `Date` column). -/
def Date.le (a b : Date) : Bool := a.toDays ≤ b.toDays

/-- First day of the calendar month containing `dt`: the bucket label that
pandas `resample('MS')` assigns to `dt`. -/
def Date.monthStart (dt : Date) : Date := ⟨dt.year, dt.month, 1⟩

/-- Gregorian leap-year test. -/
def isLeap (y : Int) : Bool := y % 4 == 0 && (y % 100 != 0 || y % 400 == 0)

/-- Number of days in a calendar month. -/
def daysInMonth (y m : Int) : Int :=
  if m = 2 then (if isLeap y then 29 else 28)
  else if m = 4 ∨ m = 6 ∨ m = 9 ∨ m = 11 then 30
  else 31

/-- Parse a decimal numeral. -/
def parseNat (s : List Char) : Option Nat :=
  if s ≠ [] ∧ s.all Char.isDigit then
    some (s.foldl (fun n c => n * 10 + (c.toNat - 48)) 0)
  else none

/-- Model of `pd.to_datetime` restricted to the `YYYY-MM-DD` format the batch
scripts prompt for: parses `y-m-d` with calendar validation, `none` models the
exception pandas raises on a string it cannot parse. -/
def to_datetime (s : String) : Option Date :=
  match (s.toList.splitOn '-').map parseNat with
  | [some y, some m, some d] =>
      if 1 ≤ (m : Int) ∧ (m : Int) ≤ 12 ∧ 1 ≤ (d : Int) ∧
          (d : Int) ≤ daysInMonth (y : Int) (m : Int) then
        some ⟨(y : Int), (m : Int), (d : Int)⟩
      else none
  | _ => none

/-- One row of the reshaped raw table inside `get_stock_data` (after the
stack/reset_index step): columns `Date, Ticker, Open, High, Low, Close,
Volume`. -/
structure RawQuote where
  date : Date
  ticker : String
  open_ : ℚ
  high : ℚ
  low : ℚ
  close : ℚ
  volume : ℕ
deriving DecidableEq, Repr

/-- One row of the dashboard's normalized frame: the raw columns plus the
`Daily_Return` column, whose `NaN` cells are modelled as `none`. -/
structure Observation where
  date : Date
  ticker : String
  open_ : ℚ
  high : ℚ
  low : ℚ
  close : ℚ
  volume : ℕ
  daily_return : Option ℚ
deriving DecidableEq, Repr

/-- The raw columns of an observation (dropping `Daily_Return`). -/
def Observation.toRaw (ob : Observation) : RawQuote :=
  ⟨ob.date, ob.ticker, ob.open_, ob.high, ob.low, ob.close, ob.volume⟩

/-- One step of `Series.pct_change`: `cur / prev - 1`. -/
def pctChange (prev cur : ℚ) : ℚ := cur / prev - 1

/-- Build an observation from a raw row and the optional previous close of the
same ticker, as `df.groupby('Ticker')['Close'].pct_change() * 100` does: the
first row of a group (no previous close) gets `NaN` (`none`). -/
def annotateRow (r : RawQuote) (prev : Option ℚ) : Observation :=
  ⟨r.date, r.ticker, r.open_, r.high, r.low, r.close, r.volume,
    prev.map (fun c => pctChange c r.close * 100)⟩

/-- Rows with the per-ticker grouped `pct_change`, computed by a scan that
remembers the latest close seen for each ticker (the association list is
consulted with `lookup`, newest binding first), exactly the dependence
structure of `groupby('Ticker')['Close'].pct_change()`. -/
def addDailyReturn (state : List (String × ℚ)) : List RawQuote → List Observation
  | [] => []
  | r :: rest =>
      annotateRow r (state.lookup r.ticker) ::
        addDailyReturn ((r.ticker, r.close) :: state) rest

/-- Model of `dosc.py` lines 29–31: annotate every row with `Daily_Return`, then
`dropna(subset=['Daily_Return'])`. -/
def normalize (rows : List RawQuote) : List Observation :=
  (addDailyReturn [] rows).filter (fun ob => ob.daily_return.isSome)

/-- What the cached fetch-and-transform displays alongside its return value. -/
inductive UiMessage
  | silent
  | warningNoData
  | errorDownload (e : String)
deriving DecidableEq, Repr

/-- Model of `dosc.py` `get_stock_data`: the download either raises (`Except.error`) —
caught, `st.error`, return `None` — or yields a raw table; an empty table
gives `st.warning` and `None`; otherwise the normalized frame is returned. -/
def get_stock_data (fetched : Except String (List RawQuote)) :
    Option (List Observation) × UiMessage :=
  match fetched with
  | .error e => (none, .errorDownload e)
  | .ok rows =>
      if rows.isEmpty then (none, .warningNoData)
      else (some (normalize rows), .silent)

/-- Model of `dosc.py` lines 292–293: the dashboard falls back to the warning branch
when `get_stock_data` returned `None` or an empty frame. -/
def dashboardFallsBack (r : Option (List Observation)) : Bool :=
  match r with
  | none => true
  | some l => l.isEmpty

/-- The dashboard's time-window selection: `"All"` or one of the finite
`period_options` values (a number of days). -/
inductive Window
  | all
  | days (n : ℕ)
deriving DecidableEq, Repr

/-- Model of `dosc.py` lines 242–251: with period `"All"` the full frame is kept,
otherwise rows with `Date >= today - timedelta(days=n)` are kept; then the
frame is restricted to the selected ticker. -/
def filterByWindow (full : List Observation) (t : String) (w : Window)
    (today : Date) : List Observation :=
  let filtered_data :=
    match w with
    | .all => full
    | .days n => full.filter (fun ob => today.toDays - (n : Int) ≤ ob.date.toDays)
  filtered_data.filter (fun ob => ob.ticker == t)

/-- What the price tab renders for the selected data (`dosc.py` lines
260–277): the KPI/chart block when the frame is non-empty, otherwise the
"No data available" warning. -/
inductive TabOutcome
  | kpis (data : List Observation)
  | warnNoDataForTicker
deriving DecidableEq, Repr

/-- Model of `dosc.py` lines 260–277: branch on `selected_data.empty`. -/
def renderPriceTab (selected : List Observation) : TabOutcome :=
  if selected.isEmpty then .warnNoDataForTicker else .kpis selected

/-- Value of `(df['Date'].max() - df['Date'].min()).days` for a non-empty frame
(`0` for the empty frame, on which the chart function is never called). -/
def spanDays (df : List Observation) : Int :=
  match df.map (fun ob => ob.date.toDays) with
  | [] => 0
  | d :: ds => ds.foldl max d - ds.foldl min d

/-- The daily volume series handed to the bar chart in the short-span branch:
`x=df['Date'], y=df['Volume']`. -/
def dailyVolume (df : List Observation) : List (Date × ℕ) :=
  df.map (fun ob => (ob.date, ob.volume))

/-- The distinct month-start bucket labels occurring in the frame. -/
def monthKeys (df : List Observation) : List Date :=
  (df.map (fun ob => ob.date.monthStart)).dedup

/-- Model of `df.set_index('Date')['Volume'].resample('MS').sum()`: for each calendar
month-start label, the sum of the volumes of the rows falling in that
month. -/
def monthlyVolume (df : List Observation) : List (Date × ℕ) :=
  (monthKeys df).map (fun k =>
    (k, ((df.filter (fun ob => ob.date.monthStart = k)).map
      (fun ob => ob.volume)).sum))

/-- Which granularity the volume chart uses. -/
inductive Granularity
  | daily
  | monthly
deriving DecidableEq, Repr

/-- Model of `dosc.py` lines 61–77 (`create_candlestick_and_volume_charts`): monthly
resampled sums when the date span exceeds 730 days, the daily series
otherwise. -/
def chooseVolumeGranularity (df : List Observation) :
    Granularity × List (Date × ℕ) :=
  if 730 < spanDays df then (.monthly, monthlyVolume df)
  else (.daily, dailyVolume df)

/-! ## The batch-export scripts (`get_stock_data.py`)

The file contains two concatenated scripts; each prompts for a start and end
date, downloads per-ticker OHLCV tables, and writes one combined CSV.  A
downloaded per-ticker table is a list of `RawRow` (columns
`Open, High, Low, Close, Volume` indexed by `Date`, the flat form both
scripts handle); the download itself is the external collaborator and enters
the model as a function from ticker to `Except` result. -/

/-- One row of a per-ticker downloaded table. -/
structure RawRow where
  date : Date
  open_ : ℚ
  high : ℚ
  low : ℚ
  close : ℚ
  volume : ℕ
deriving DecidableEq, Repr

/-- Value of `Series.pct_change() * 100` over a single-ticker table: each row paired
with its percentage return, `none` (NaN) for the first row. -/
def rowReturns (prev : Option ℚ) : List RawRow → List (RawRow × Option ℚ)
  | [] => []
  | r :: rest =>
      (r, prev.map (fun c => pctChange c r.close * 100)) ::
        rowReturns (some r.close) rest

/-- A data row of the first script's CSV: columns
`Date, Open, High, Low, Close, Volume, Ticker, Daily_Return`
(`reset_index` puts `Date` first; `Ticker` and `Daily_Return` were appended
after the OHLCV selection; `dropna` guarantees a present return). -/
structure ExportRow where
  date : Date
  open_ : ℚ
  high : ℚ
  low : ℚ
  close : ℚ
  volume : ℕ
  ticker : String
  daily_return : ℚ
deriving DecidableEq, Repr

/-- A data row of the second script's CSV: same columns, but the return of a
group's first row is still NaN (`none`) because that script never drops it. -/
structure Export2Row where
  date : Date
  open_ : ℚ
  high : ℚ
  low : ℚ
  close : ℚ
  volume : ℕ
  ticker : String
  daily_return : Option ℚ
deriving DecidableEq, Repr

/-- First script, per-ticker processing (`get_stock_data.py` lines 38–66):
select OHLCV, append `Ticker`, compute `Daily_Return`, drop the NaN rows,
`reset_index`. -/
def script1Process (t : String) (rows : List RawRow) : List ExportRow :=
  (rowReturns none rows).filterMap (fun p =>
    p.2.map (fun q =>
      ⟨p.1.date, p.1.open_, p.1.high, p.1.low, p.1.close, p.1.volume, t, q⟩))

/-- Second script, per-ticker processing (`get_stock_data.py` lines 123–127):
append `Ticker` and `Daily_Return`, keep every row (no `dropna`). -/
def script2Process (t : String) (rows : List RawRow) : List Export2Row :=
  (rowReturns none rows).map (fun p =>
    ⟨p.1.date, p.1.open_, p.1.high, p.1.low, p.1.close, p.1.volume, t, p.2⟩)

/-- Hard-coded ticker list of the first script. -/
def script1Tickers : List String := ["AAPL", "GOOGL", "MSFT"]

/-- Hard-coded ticker list of the second script. -/
def script2Tickers : List String := ["AAPL", "GOOGL", "MSFT", "TSLA"]

/-- Header of the first script's CSV. -/
def script1Header : List String :=
  ["Date", "Open", "High", "Low", "Close", "Volume", "Ticker", "Daily_Return"]

/-- Header of the second script's CSV (`index=True` writes the `Date` index
label first, then the downloaded columns followed by the appended ones). -/
def script2Header : List String :=
  ["Date", "Open", "High", "Low", "Close", "Volume", "Ticker", "Daily_Return"]

/-- Observable outcome of one run of the first script. -/
structure Script1Outcome where
  /-- Whether the invalid-date-format message was printed. -/
  printedInvalidDateMsg : Bool
  /-- the run died on an exception no handler caught (interpreter traceback) -/
  uncaughtException : Bool
  /-- process exit status -/
  exitCode : ℕ
  /-- number of `yf.download` calls made -/
  downloadsAttempted : ℕ
  /-- the CSV written, if any: header and data rows -/
  csv : Option (List String × List ExportRow)
deriving DecidableEq, Repr

/-- Observable outcome of one run of the second script. -/
structure Script2Outcome where
  printedInvalidDateMsg : Bool
  uncaughtException : Bool
  exitCode : ℕ
  downloadsAttempted : ℕ
  csv : Option (List String × List Export2Row)
deriving DecidableEq, Repr

/-- First script (`get_stock_data.py` lines 1–84).  Date parsing sits in a
`try` block: a parse failure prints the invalid-format message and calls
`exit()`, which raises `SystemExit(None)` — process status 0 — before any
download.  Otherwise every ticker is downloaded; errored or empty downloads
are skipped; if nothing was appended the script prints and `exit()`s, else
the concatenated frame is written as CSV. -/
def script1Run (startStr endStr : String)
    (fetch : String → Except String (List RawRow)) : Script1Outcome :=
  match to_datetime startStr, to_datetime endStr with
  | some _, some _ =>
      let frames := script1Tickers.filterMap (fun t =>
        match fetch t with
        | .error _ => none
        | .ok rows => if rows.isEmpty then none else some (script1Process t rows))
      if frames.isEmpty then
        { printedInvalidDateMsg := false, uncaughtException := false,
          exitCode := 0, downloadsAttempted := script1Tickers.length,
          csv := none }
      else
        { printedInvalidDateMsg := false, uncaughtException := false,
          exitCode := 0, downloadsAttempted := script1Tickers.length,
          csv := some (script1Header, frames.flatten) }
  | _, _ =>
      { printedInvalidDateMsg := true, uncaughtException := false,
        exitCode := 0, downloadsAttempted := 0, csv := none }

/-- Second script (`get_stock_data.py` lines 87–148).  Date parsing is NOT
guarded: a parse failure propagates as an uncaught exception (interpreter
prints a traceback, process status 1) before any download.  Otherwise the
per-ticker loop appends every non-empty download (no `dropna`), and the
combined frame is written with `index=True`; with nothing downloaded it just
prints and ends normally. -/
def script2Run (startStr endStr : String)
    (fetch : String → Except String (List RawRow)) : Script2Outcome :=
  match to_datetime startStr, to_datetime endStr with
  | some _, some _ =>
      let frames := script2Tickers.filterMap (fun t =>
        match fetch t with
        | .error _ => none
        | .ok rows => if rows.isEmpty then none else some (script2Process t rows))
      if frames.isEmpty then
        { printedInvalidDateMsg := false, uncaughtException := false,
          exitCode := 0, downloadsAttempted := script2Tickers.length,
          csv := none }
      else
        { printedInvalidDateMsg := false, uncaughtException := false,
          exitCode := 0, downloadsAttempted := script2Tickers.length,
          csv := some (script2Header, frames.flatten) }
  | _, _ =>
      { printedInvalidDateMsg := false, uncaughtException := true,
        exitCode := 1, downloadsAttempted := 0, csv := none }

/-! ## Auxiliary definitions used only in statements and witnesses -/

/-- The window-membership condition of `dosc.py` line 249 as a standalone
predicate (`"All"` matches everything). -/
def matchesWindow (w : Window) (today : Date) (ob : Observation) : Bool :=
  match w with
  | .all => true
  | .days n => decide (today.toDays - (n : Int) ≤ ob.date.toDays)

/-- Annotation of one ticker group by the grouped `pct_change`, carrying the
previous close into the group: the reference semantics the interleaved scan
`addDailyReturn` is proved to refine, group by group. -/
def annotateGroup (prev : Option ℚ) : List RawQuote → List Observation
  | [] => []
  | r :: rest => annotateRow r prev :: annotateGroup (some r.close) rest

/-- One ticker's ordered sub-sequence of the annotated frame (the group the
`daily_return` invariant of the spec quantifies over, before the NaN drop). -/
def tickerSeries (rows : List RawQuote) (t : String) : List Observation :=
  (addDailyReturn [] rows).filter (fun ob => ob.ticker == t)

/-- A three-row single-ticker raw table with closes `100, 110, 99`. -/
def demoQuotes : List RawQuote :=
  [⟨⟨2023, 1, 2⟩, "TSLA", 100, 101, 99, 100, 10⟩,
   ⟨⟨2023, 1, 3⟩, "TSLA", 100, 111, 100, 110, 20⟩,
   ⟨⟨2023, 1, 4⟩, "TSLA", 110, 111, 98, 99, 30⟩]

/-- A concrete normalized frame spanning well under 730 days. -/
def demoObsShort : List Observation :=
  [⟨⟨2023, 1, 3⟩, "TSLA", 100, 111, 100, 110, 20, some 10⟩,
   ⟨⟨2023, 1, 4⟩, "TSLA", 110, 111, 98, 99, 30, some (-10)⟩]

/-- A concrete normalized frame spanning more than 730 days (three years). -/
def demoObsLong : List Observation :=
  [⟨⟨2021, 1, 4⟩, "TSLA", 100, 111, 100, 110, 20, some 10⟩,
   ⟨⟨2022, 3, 4⟩, "TSLA", 110, 111, 98, 99, 30, some (-10)⟩,
   ⟨⟨2024, 1, 4⟩, "TSLA", 110, 111, 98, 99, 40, some (-10)⟩]

/-- A four-trading-day single-ticker downloaded table
(`2023-01-02` … `2023-01-05`). -/
def demoRawRows : List RawRow :=
  [⟨⟨2023, 1, 2⟩, 100, 101, 99, 100, 10⟩,
   ⟨⟨2023, 1, 3⟩, 100, 111, 100, 110, 20⟩,
   ⟨⟨2023, 1, 4⟩, 110, 111, 98, 99, 30⟩,
   ⟨⟨2023, 1, 5⟩, 99, 102, 98, 101, 40⟩]

/-- A download in which exactly the ticker `AAPL` has (four days of) data. -/
def demoFetch (t : String) : Except String (List RawRow) :=
  if t = "AAPL" then .ok demoRawRows else .ok []

/-! ## Helper lemmas -/

/-- The two-stage filtering of `dosc.py` (date window, then ticker) equals a
single filter by ticker match conjoined with window membership. -/
theorem filterByWindow_eq (full : List Observation) (t : String) (w : Window)
    (today : Date) :
    filterByWindow full t w today =
      full.filter (fun ob => ob.ticker == t && matchesWindow w today ob) := by
  cases w with
  | all => simp [filterByWindow, matchesWindow]
  | days n => simp only [filterByWindow, matchesWindow, List.filter_filter]

@[simp] theorem annotateRow_ticker (r : RawQuote) (p : Option ℚ) :
    (annotateRow r p).ticker = r.ticker := rfl

@[simp] theorem annotateRow_close (r : RawQuote) (p : Option ℚ) :
    (annotateRow r p).close = r.close := rfl

@[simp] theorem annotateRow_daily_return (r : RawQuote) (p : Option ℚ) :
    (annotateRow r p).daily_return =
      p.map (fun c => pctChange c r.close * 100) := rfl

@[simp] theorem annotateRow_toRaw (r : RawQuote) (p : Option ℚ) :
    (annotateRow r p).toRaw = r := rfl

/-- Restricting the interleaved scan to one ticker gives that ticker's group
annotated on its own: the per-ticker grouping of
`groupby('Ticker')['Close'].pct_change()`. -/
theorem addDailyReturn_filter (t : String) :
    ∀ (l : List RawQuote) (s : List (String × ℚ)),
      (addDailyReturn s l).filter (fun ob => ob.ticker == t) =
        annotateGroup (s.lookup t) (l.filter (fun r => r.ticker == t)) := by
  intro l
  induction l with
  | nil => intro _; rfl
  | cons r rest ih =>
      intro s
      simp only [addDailyReturn, List.filter_cons, annotateRow_ticker]
      by_cases h : r.ticker = t
      · subst h
        have hb : (r.ticker == r.ticker) = true := beq_self_eq_true r.ticker
        rw [if_pos hb, if_pos hb, ih, annotateGroup]
        have hl : ((r.ticker, r.close) :: s).lookup r.ticker = some r.close := by
          simp [List.lookup]
        rw [hl]
      · have hb : (r.ticker == t) = false :=
          beq_eq_false_iff_ne.mpr h
        rw [if_neg (by simp [hb]), if_neg (by simp [hb]), ih]
        have hl : ((r.ticker, r.close) :: s).lookup t = s.lookup t := by
          have hb2 : (t == r.ticker) = false :=
            beq_eq_false_iff_ne.mpr (Ne.symm h)
          simp [List.lookup, hb2]
        rw [hl]

/-- Every observation annotated with a present previous close carries a
present (non-NaN) return. -/
theorem annotateGroup_some_all_isSome (g : List RawQuote) :
    ∀ (c : ℚ), ∀ ob ∈ annotateGroup (some c) g, ob.daily_return.isSome := by
  induction g with
  | nil => intro c ob hob; simp [annotateGroup] at hob
  | cons r rest ih =>
      intro c ob hob
      rcases List.mem_cons.mp hob with rfl | hob
      · simp
      · exact ih r.close ob hob

/-- The NaN drop keeps a group annotated with a present previous close
intact. -/
theorem annotateGroup_some_filter (c : ℚ) (g : List RawQuote) :
    (annotateGroup (some c) g).filter (fun ob => ob.daily_return.isSome) =
      annotateGroup (some c) g :=
  List.filter_eq_self.mpr (annotateGroup_some_all_isSome g c)

/-- Annotation preserves the raw columns. -/
theorem annotateGroup_map_toRaw (g : List RawQuote) :
    ∀ (p : Option ℚ), (annotateGroup p g).map Observation.toRaw = g := by
  induction g with
  | nil => intro _; rfl
  | cons r rest ih => intro p; simp [annotateGroup, ih]

/-- One ticker's slice of the normalized output is its own group annotated
from scratch and with the NaN rows dropped. -/
theorem normalize_filter_ticker (rows : List RawQuote) (t : String) :
    (normalize rows).filter (fun ob => ob.ticker == t) =
      (annotateGroup none (rows.filter (fun r => r.ticker == t))).filter
        (fun ob => ob.daily_return.isSome) := by
  unfold normalize
  rw [List.filter_comm, addDailyReturn_filter]
  rfl

/-- Per ticker, the normalized output's raw columns are exactly the raw
group's rows with the leading row removed. -/
theorem normalize_group_tail (rows : List RawQuote) (t : String) :
    ((normalize rows).filter (fun ob => ob.ticker == t)).map
        Observation.toRaw =
      (rows.filter (fun r => r.ticker == t)).tail := by
  rw [normalize_filter_ticker]
  cases hg : rows.filter (fun r => r.ticker == t) with
  | nil => rfl
  | cons r rest =>
      show ((annotateRow r none :: annotateGroup (some r.close) rest).filter
        (fun ob => ob.daily_return.isSome)).map Observation.toRaw = rest
      rw [List.filter_cons_of_neg (by simp), annotateGroup_some_filter,
        annotateGroup_map_toRaw]

/-- With a non-zero previous close, `pct_change` agrees with the difference
quotient the spec states. -/
theorem pctChange_formula (x c : ℚ) (hc : c ≠ 0) :
    pctChange c x * 100 = (x - c) / c * 100 := by
  unfold pctChange
  rw [sub_div, div_self hc]

/-- Consecutive observations of an annotated group are linked by the
`pct_change` recurrence. -/
theorem annotateGroup_chain (g : List RawQuote) :
    ∀ (p : Option ℚ),
      List.Chain' (fun a b : Observation =>
          b.daily_return = some (pctChange a.close b.close * 100))
        (annotateGroup p g) := by
  induction g with
  | nil => intro _; simp [annotateGroup]
  | cons r rest ih =>
      intro p
      cases rest with
      | nil => simp [annotateGroup]
      | cons r2 rest2 =>
          exact List.chain'_cons.mpr ⟨rfl, ih (some r.close)⟩

/-- Summing an indicator over a duplicate-free key list that contains the
key yields the indicated value. -/
theorem sum_map_ite_eq {κ : Type} [DecidableEq κ] (v : ℕ) (k0 : κ) :
    ∀ (keys : List κ), keys.Nodup → k0 ∈ keys →
      (keys.map (fun k => if k0 = k then v else 0)).sum = v := by
  intro keys
  induction keys with
  | nil => intro _ h; cases h
  | cons k ks ih =>
      intro hnd hk
      rcases List.mem_cons.mp hk with rfl | hk2
      · have hnin : k0 ∉ ks := (List.nodup_cons.mp hnd).1
        simp only [List.map_cons, List.sum_cons, if_pos rfl]
        have hz : (ks.map (fun k => if k0 = k then v else 0)).sum = 0 := by
          apply List.sum_eq_zero
          intro x hx
          obtain ⟨k2, hk2m, rfl⟩ := List.mem_map.mp hx
          rw [if_neg]
          intro he
          exact hnin (he ▸ hk2m)
        rw [hz]
        simp
      · have hne : k0 ≠ k := by
          rintro rfl
          exact (List.nodup_cons.mp hnd).1 hk2
        simp only [List.map_cons, List.sum_cons, if_neg hne, zero_add]
        exact ih (List.nodup_cons.mp hnd).2 hk2

/-- Sums distribute over a pointwise sum of mapped functions. -/
theorem sum_map_add {κ : Type} (f g : κ → ℕ) :
    ∀ (keys : List κ),
      (keys.map (fun k => f k + g k)).sum = (keys.map f).sum + (keys.map g).sum := by
  intro keys
  induction keys with
  | nil => rfl
  | cons k ks ih => simp only [List.map_cons, List.sum_cons, ih]; omega

/-- Partitioning a list into fibers over a duplicate-free key list covering
all its keys preserves the total of the values: the heart of the
volume-preservation claim. -/
theorem sum_fibers {α κ : Type} [DecidableEq κ] (key : α → κ) (v : α → ℕ)
    (keys : List κ) (hnd : keys.Nodup) :
    ∀ (l : List α), (∀ a ∈ l, key a ∈ keys) →
      (keys.map (fun k => ((l.filter (fun a => key a = k)).map v).sum)).sum
        = (l.map v).sum := by
  intro l
  induction l with
  | nil => intro _; simp
  | cons a l ih =>
      intro hall
      have hmem : key a ∈ keys := hall a (List.mem_cons_self a l)
      have hstep : ∀ k : κ,
          (((a :: l).filter (fun x => key x = k)).map v).sum =
            (if key a = k then v a else 0) +
              ((l.filter (fun x => key x = k)).map v).sum := by
        intro k
        by_cases h : key a = k
        · rw [List.filter_cons_of_pos (by simpa using h), if_pos h]
          simp
        · rw [List.filter_cons_of_neg (by simpa using h), if_neg h]
          simp
      have hmapeq :
          keys.map (fun k => (((a :: l).filter (fun x => key x = k)).map v).sum) =
            keys.map (fun k => (if key a = k then v a else 0) +
              ((l.filter (fun x => key x = k)).map v).sum) :=
        List.map_congr_left (fun k _ => hstep k)
      rw [hmapeq, sum_map_add, sum_map_ite_eq (v a) (key a) keys hnd hmem,
        ih (fun x hx => hall x (List.mem_cons_of_mem a hx)), List.map_cons,
        List.sum_cons]

/-- The `pct_change` annotation keeps one pair per input row. -/
theorem rowReturns_length (l : List RawRow) :
    ∀ p, (rowReturns p l).length = l.length := by
  induction l with
  | nil => intro _; rfl
  | cons r rest ih => intro p; simp [rowReturns, ih]

/-- After the first row, every annotated pair carries a present return. -/
theorem rowReturns_some_all (l : List RawRow) :
    ∀ c : ℚ, ∀ p ∈ rowReturns (some c) l, p.2.isSome := by
  induction l with
  | nil => intro c p hp; simp [rowReturns] at hp
  | cons r rest ih =>
      intro c p hp
      rcases List.mem_cons.mp hp with rfl | hp2
      · simp
      · exact ih r.close p hp2

/-- Mapping with `filterMap` by an everywhere-defined function preserves length. -/
theorem filterMap_length_of_all_some {α β : Type} (f : α → Option β) :
    ∀ (l : List α), (∀ a ∈ l, (f a).isSome) →
      (l.filterMap f).length = l.length := by
  intro l
  induction l with
  | nil => intro _; rfl
  | cons a l ih =>
      intro h
      obtain ⟨b, hb⟩ := Option.isSome_iff_exists.mp (h a (List.mem_cons_self a l))
      rw [List.filterMap_cons_some hb, List.length_cons, List.length_cons,
        ih (fun x hx => h x (List.mem_cons_of_mem a hx))]

/-- The first script exports one CSV row per trading day after the first:
`dropna` removes exactly the leading NaN row. -/
theorem script1Process_cons_length (t : String) (r : RawRow)
    (rest : List RawRow) :
    (script1Process t (r :: rest)).length = rest.length := by
  show (((r, Option.map (fun c => pctChange c r.close * 100) none) ::
      rowReturns (some r.close) rest).filterMap _).length = rest.length
  rw [List.filterMap_cons_none (by rfl)]
  rw [filterMap_length_of_all_some _ _ (fun p hp => by
    have hs := rowReturns_some_all rest r.close p hp
    simpa using hs)]
  exact rowReturns_length rest _

/-- The second script exports one CSV row per trading day, leading NaN row
included. -/
theorem script2Process_length (t : String) (rows : List RawRow) :
    (script2Process t rows).length = rows.length := by
  unfold script2Process
  rw [List.length_map]
  exact rowReturns_length rows none

/-! ## Claim theorems -/

/-- C1: on a non-empty raw table, `get_stock_data` returns a frame in which
every observation has a non-null `daily_return`, and, per ticker, the
output's rows are exactly the raw group's rows with the leading
(first chronological) row removed — in particular that first row is absent
from the output. -/
theorem C1_normalize_total_returns (rows : List RawQuote) (h : rows ≠ []) :
    ∃ out, (get_stock_data (Except.ok rows)).1 = some out ∧
      (∀ ob ∈ out, ob.daily_return ≠ none) ∧
      ∀ t, (out.filter (fun ob => ob.ticker == t)).map Observation.toRaw =
        (rows.filter (fun r => r.ticker == t)).tail := by
  refine ⟨normalize rows, ?_, ?_, fun t => normalize_group_tail rows t⟩
  · have hne : rows.isEmpty = false := by
      cases rows with
      | nil => exact absurd rfl h
      | cons a l => rfl
    simp [get_stock_data, hne]
  · intro ob hob
    have hs : ob.daily_return.isSome := (List.mem_filter.mp hob).2
    exact Option.isSome_iff_ne_none.mp hs

/-- C1 witness at the three-row demo table. -/
theorem C1_witness :
    ∃ out, (get_stock_data (Except.ok demoQuotes)).1 = some out ∧
      (∀ ob ∈ out, ob.daily_return ≠ none) ∧
      ∀ t, (out.filter (fun ob => ob.ticker == t)).map Observation.toRaw =
        (demoQuotes.filter (fun r => r.ticker == t)).tail :=
  C1_normalize_total_returns demoQuotes (by decide)

/-- C2: within one ticker's annotated sequence, the return at a position
`i > 0` equals `(close[i] - close[i-1]) / close[i-1] * 100` (previous close
non-zero, as for real price data); and on the demo table with closes
`100, 110, 99` the normalized output's returns are exactly `[10, -10]`. -/
theorem C2_daily_return_formula (rows : List RawQuote) (t : String) (i : ℕ)
    (h0 : 0 < i) (hi : i < (tickerSeries rows t).length)
    (hc : ((tickerSeries rows t).get ⟨i - 1, by omega⟩).close ≠ 0) :
    (((tickerSeries rows t).get ⟨i, hi⟩).daily_return =
      some ((((tickerSeries rows t).get ⟨i, hi⟩).close -
             ((tickerSeries rows t).get ⟨i - 1, by omega⟩).close) /
            ((tickerSeries rows t).get ⟨i - 1, by omega⟩).close * 100)) ∧
    (normalize demoQuotes).map (fun ob => ob.daily_return) =
      [some 10, some (-10)] := by
  constructor
  · obtain ⟨j, rfl⟩ : ∃ j, i = j + 1 :=
      ⟨i - 1, (Nat.succ_pred_eq_of_pos h0).symm⟩
    have hchain : List.Chain' (fun a b : Observation =>
        b.daily_return = some (pctChange a.close b.close * 100))
        (tickerSeries rows t) := by
      unfold tickerSeries
      rw [addDailyReturn_filter]
      exact annotateGroup_chain _ _
    have hj : j < (tickerSeries rows t).length - 1 := by omega
    have hR := List.chain'_iff_get.mp hchain j hj
    have hstep :
        ((tickerSeries rows t).get ⟨j + 1, hi⟩).daily_return =
          some (pctChange (((tickerSeries rows t).get ⟨j + 1 - 1, by omega⟩).close)
            (((tickerSeries rows t).get ⟨j + 1, hi⟩).close) * 100) := hR
    rw [hstep]
    exact congrArg some (pctChange_formula _ _ hc)
  · norm_num [normalize, demoQuotes, addDailyReturn, annotateRow, List.lookup,
      pctChange]

/-- C2 witness: the demo table instantiates the index formula at `i = 1`,
and exhibits the `[10, -10]` output. -/
theorem C2_witness :
    ((tickerSeries demoQuotes "TSLA").get ⟨1, by decide⟩).daily_return =
      some ((((tickerSeries demoQuotes "TSLA").get ⟨1, by decide⟩).close -
             ((tickerSeries demoQuotes "TSLA").get ⟨0, by decide⟩).close) /
            ((tickerSeries demoQuotes "TSLA").get ⟨0, by decide⟩).close * 100) ∧
    (normalize demoQuotes).map (fun ob => ob.daily_return) =
      [some 10, some (-10)] :=
  ⟨(C2_daily_return_formula demoQuotes "TSLA" 1 (by decide) (by decide)
      (by decide)).1,
   (C2_daily_return_formula demoQuotes "TSLA" 1 (by decide) (by decide)
      (by decide)).2⟩

/-- C3: `filterByWindow` with window `"all"` returns the selected ticker's
full history unmodified, and with a finite window of `n` days returns exactly
the observations of that ticker whose date is on or after `today - n`
(inclusive lower bound). -/
theorem C3_filterByWindow_semantics (full : List Observation) (t : String)
    (today : Date) :
    filterByWindow full t .all today =
      full.filter (fun ob => ob.ticker == t) ∧
    ∀ n : ℕ, filterByWindow full t (.days n) today =
      full.filter (fun ob =>
        ob.ticker == t && decide (today.toDays - (n : Int) ≤ ob.date.toDays)) :=
  ⟨rfl, fun n => filterByWindow_eq full t (.days n) today⟩

/-- C4: when no observation matches the requested ticker and window,
`filterByWindow` returns the empty sequence, and the price tab renders the
"no data" warning rather than an error. -/
theorem C4_no_match_empty (full : List Observation) (t : String) (w : Window)
    (today : Date)
    (h : ∀ ob ∈ full, ¬(ob.ticker = t ∧ matchesWindow w today ob = true)) :
    filterByWindow full t w today = [] ∧
    renderPriceTab (filterByWindow full t w today) =
      TabOutcome.warnNoDataForTicker := by
  have he : filterByWindow full t w today = [] := by
    rw [filterByWindow_eq]
    refine List.filter_eq_nil_iff.mpr ?_
    intro ob hob hb
    rw [Bool.and_eq_true, beq_iff_eq] at hb
    exact h ob hob ⟨hb.1, hb.2⟩
  exact ⟨he, by rw [he]; rfl⟩

/-- C4 witness: a concrete frame that mentions neither the ticker nor the
window gives the empty result and the warning outcome. -/
theorem C4_witness :
    filterByWindow demoObsShort "AAPL" (.days 30) ⟨2025, 1, 1⟩ = [] ∧
    renderPriceTab (filterByWindow demoObsShort "AAPL" (.days 30) ⟨2025, 1, 1⟩) =
      TabOutcome.warnNoDataForTicker :=
  C4_no_match_empty demoObsShort "AAPL" (.days 30) ⟨2025, 1, 1⟩ (by decide)

/-- C5: an empty raw table makes `get_stock_data` return `None` together with
the no-data warning; being a total function of the model, it never
crashes. -/
theorem C5_empty_table_nodata (rows : List RawQuote) (h : rows = []) :
    get_stock_data (Except.ok rows) = (none, UiMessage.warningNoData) := by
  subst h; rfl

/-- C5 witness at the concrete empty table. -/
theorem C5_witness :
    get_stock_data (Except.ok ([] : List RawQuote)) =
      (none, UiMessage.warningNoData) :=
  C5_empty_table_nodata [] rfl

/-- C10: the dashboard's fetch returns the same `None` on a download
exception as on an empty table, so the caller cannot distinguish the two,
and both select the identical fallback branch at `dosc.py` line 292. -/
theorem C10_indistinguishable_failures (e : String) :
    (get_stock_data (Except.error e)).1 = none ∧
    (get_stock_data (Except.ok ([] : List RawQuote))).1 = none ∧
    dashboardFallsBack (get_stock_data (Except.error e)).1 =
      dashboardFallsBack (get_stock_data (Except.ok ([] : List RawQuote))).1 :=
  ⟨rfl, rfl, rfl⟩

/-- C6: the volume chart uses monthly buckets (calendar month-start sums)
exactly when the date span exceeds 730 days, and otherwise reports the daily
volume series unchanged. -/
theorem C6_granularity_choice (df : List Observation) :
    ((chooseVolumeGranularity df).1 = Granularity.monthly ↔
      730 < spanDays df) ∧
    (730 < spanDays df → (chooseVolumeGranularity df).2 = monthlyVolume df) ∧
    (¬730 < spanDays df → (chooseVolumeGranularity df).2 = dailyVolume df) := by
  by_cases h : 730 < spanDays df <;> simp [chooseVolumeGranularity, h]

/-- C7: when the span exceeds 730 days, the monthly-bucketed volume sums
total exactly the sum of the constituent daily volumes — the bucketing is
volume-preserving. -/
theorem C7_bucketing_volume_preserving (df : List Observation)
    (h : 730 < spanDays df) :
    (((chooseVolumeGranularity df).2).map Prod.snd).sum =
      (df.map (fun ob => ob.volume)).sum := by
  have h2 : (chooseVolumeGranularity df).2 = monthlyVolume df := by
    simp [chooseVolumeGranularity, h]
  rw [h2]
  unfold monthlyVolume
  rw [List.map_map]
  exact sum_fibers (fun ob => ob.date.monthStart) (fun ob => ob.volume)
    (monthKeys df) (List.nodup_dedup _) df
    (fun a ha => by
      simp only [monthKeys, List.mem_dedup]
      exact List.mem_map_of_mem _ ha)

/-- C7 witness at the three-year demo frame. -/
theorem C7_witness :
    (((chooseVolumeGranularity demoObsLong).2).map Prod.snd).sum =
      (demoObsLong.map (fun ob => ob.volume)).sum :=
  C7_bucketing_volume_preserving demoObsLong (by decide)

/-- C6 witness: a one-day span stays daily, a three-year span goes
monthly. -/
theorem C6_witness :
    (chooseVolumeGranularity demoObsShort).2 = dailyVolume demoObsShort ∧
    (chooseVolumeGranularity demoObsLong).2 = monthlyVolume demoObsLong :=
  ⟨(C6_granularity_choice demoObsShort).2.2 (by decide),
   (C6_granularity_choice demoObsLong).2.1 (by decide)⟩

/-- C8 counterexample: on a malformed start date, the first script does
print the invalid-date message, but `exit()` raises `SystemExit(None)`, so
the process status is `0` — not the nonzero exit the claim states. -/
theorem C8_counterexample :
    (script1Run "2023-13-45" "2023-01-01"
      (fun _ => Except.ok [])).printedInvalidDateMsg = true ∧
    (script1Run "2023-13-45" "2023-01-01"
      (fun _ => Except.ok [])).exitCode = 0 := by
  constructor <;> rfl

/-- C8 (amended): on any malformed start or end date string, both scripts
stop before any download or CSV write; the first prints the invalid-date
message and exits with status 0 via `exit()`, the second dies on an uncaught
exception (nonzero status) without printing a script-level message. -/
theorem C8_amended_abort (startStr endStr : String)
    (fetch : String → Except String (List RawRow))
    (h : to_datetime startStr = none ∨ to_datetime endStr = none) :
    script1Run startStr endStr fetch =
      { printedInvalidDateMsg := true, uncaughtException := false,
        exitCode := 0, downloadsAttempted := 0, csv := none } ∧
    script2Run startStr endStr fetch =
      { printedInvalidDateMsg := false, uncaughtException := true,
        exitCode := 1, downloadsAttempted := 0, csv := none } := by
  unfold script1Run script2Run
  rcases hs : to_datetime startStr with _ | d1 <;>
    rcases he : to_datetime endStr with _ | d2
  · exact ⟨rfl, rfl⟩
  · exact ⟨rfl, rfl⟩
  · exact ⟨rfl, rfl⟩
  · rcases h with h | h
    · rw [hs] at h; cases h
    · rw [he] at h; cases h

/-- C8 witness: the amended abort behaviour at a concrete malformed date. -/
theorem C8_witness :
    script1Run "2023-13-45" "2023-01-01" (fun _ => Except.ok []) =
      { printedInvalidDateMsg := true, uncaughtException := false,
        exitCode := 0, downloadsAttempted := 0, csv := none } ∧
    script2Run "2023-13-45" "2023-01-01" (fun _ => Except.ok []) =
      { printedInvalidDateMsg := false, uncaughtException := true,
        exitCode := 1, downloadsAttempted := 0, csv := none } :=
  C8_amended_abort "2023-13-45" "2023-01-01" (fun _ => Except.ok [])
    (Or.inl (by decide))

/-- C9 counterexample: the second script keeps the leading NaN-return row,
so on the claimed scenario (4 trading days for a single ticker) its CSV has
4 data rows, not 3. -/
theorem C9_counterexample :
    ((script2Run "2023-01-01" "2023-01-05" demoFetch).csv.map
      (fun c => c.2.length)) = some 4 := by
  rfl

/-- C9 (amended): on start `2023-01-01`, end `2023-01-05`, with a single
ticker holding 4 trading days of data, the FIRST script's CSV has exactly 3
data rows under the header `Date, Open, High, Low, Close, Volume, Ticker,
Daily_Return`; the second script, which never drops the leading row, emits 4
data rows under the same header. -/
theorem C9_amended_csv_shape (rows : List RawRow) (hlen : rows.length = 4)
    (fetch : String → Except String (List RawRow))
    (hA : fetch "AAPL" = Except.ok rows)
    (hG : fetch "GOOGL" = Except.ok [])
    (hM : fetch "MSFT" = Except.ok [])
    (hT : fetch "TSLA" = Except.ok []) :
    (∃ data, (script1Run "2023-01-01" "2023-01-05" fetch).csv =
        some (script1Header, data) ∧ data.length = 3) ∧
    (∃ data2, (script2Run "2023-01-01" "2023-01-05" fetch).csv =
        some (script2Header, data2) ∧ data2.length = 4) := by
  obtain ⟨r, rest, rfl⟩ : ∃ r rest, rows = r :: rest := by
    cases rows with
    | nil => simp at hlen
    | cons a l => exact ⟨a, l, rfl⟩
  have hrest : rest.length = 3 := by simpa using hlen
  constructor
  · refine ⟨script1Process "AAPL" (r :: rest), ?_, ?_⟩
    · unfold script1Run
      rw [show to_datetime "2023-01-01" = some ⟨2023, 1, 1⟩ from by decide,
        show to_datetime "2023-01-05" = some ⟨2023, 1, 5⟩ from by decide]
      simp [script1Tickers, hA, hG, hM]
    · rw [script1Process_cons_length]
      exact hrest
  · refine ⟨script2Process "AAPL" (r :: rest), ?_, ?_⟩
    · unfold script2Run
      rw [show to_datetime "2023-01-01" = some ⟨2023, 1, 1⟩ from by decide,
        show to_datetime "2023-01-05" = some ⟨2023, 1, 5⟩ from by decide]
      simp [script2Tickers, hA, hG, hM, hT]
    · rw [script2Process_length]
      simpa using hlen

/-- C9 witness: the amended CSV shapes at the concrete four-day download. -/
theorem C9_witness :
    (∃ data, (script1Run "2023-01-01" "2023-01-05" demoFetch).csv =
        some (script1Header, data) ∧ data.length = 3) ∧
    (∃ data2, (script2Run "2023-01-01" "2023-01-05" demoFetch).csv =
        some (script2Header, data2) ∧ data2.length = 4) :=
  C9_amended_csv_shape demoRawRows rfl demoFetch rfl (by rfl) (by rfl) (by rfl)

end Stockr

